import Mathlib

/-!
Shallow embedding of the webhook verification, correlation and fulfillment
pipeline of the Star-driver repository, together with theorems checking the
natural-language specification against it.

The embedding mirrors, definition by definition:
  - the JavaScript Map used as order registry in BotService (src/bot, orders
    Map with saveOrderInfo / getOrderInfo / removeOrderInfo);
  - the duplicate suppressor of KassaWebhookService (processedWebhooks Map,
    WEBHOOK_TTL, cleanupExpiredWebhooks, isWebhookAlreadyProcessed,
    markWebhookAsProcessed);
  - the webhook processing services (KassaWebhookService, WataWebhookService,
    PayID19WebhookService) as state transformers emitting an explicit list of
    observable effects (provisioning calls, user notifications, warnings,
    audit records);
  - the signature verifiers (KassaSignatureService, WataSignatureService,
    PayID19Service.validateWebhook) with the cryptographic hash and RSA
    primitives of the node crypto library taken as oracle parameters, since
    they are external collaborators of the repository;
  - the controller level decisions (RootWebhookController,
    PayID19WebhookController).

External asynchronous calls that can fail (Fragment buyStars, Telegram
getChat) are passed in as oracle arguments: an Except value for the
provisioning outcome and an Option valued lookup for the username
resolution.  Telegram notifications and the transaction logger catch their
own errors in the source, so they are modelled as effects that always
succeed.
-/

/-! ### Association list maps

JavaScript Map objects (BotService.orders, KassaWebhookService.
processedWebhooks) are modelled as association lists with unique keys:
set is erase then cons, delete is a filter, get is the first lookup. -/

def lookupKey {α : Type} (k : String) : List (String × α) → Option α
  | [] => none
  | (k2, v) :: rest => if k2 == k then some v else lookupKey k rest

def containsKey {α : Type} (k : String) (m : List (String × α)) : Bool :=
  (lookupKey k m).isSome

def eraseKey {α : Type} (k : String) (m : List (String × α)) : List (String × α) :=
  m.filter (fun e => !(e.1 == k))

def insertKey {α : Type} (k : String) (v : α) (m : List (String × α)) : List (String × α) :=
  (k, v) :: eraseKey k m

theorem lookupKey_insert_self {α : Type} (k : String) (v : α) (m : List (String × α)) :
    lookupKey k (insertKey k v m) = some v := by
  simp [insertKey, lookupKey]

theorem lookupKey_eraseKey_self {α : Type} (k : String) (m : List (String × α)) :
    lookupKey k (eraseKey k m) = none := by
  induction m with
  | nil => simp [eraseKey, lookupKey]
  | cons e rest ih =>
    by_cases h : e.1 = k
    · simpa [eraseKey, h] using ih
    · have hne : (e.1 == k) = false := by simp [h]
      simp only [eraseKey, List.filter_cons, hne]
      simpa [lookupKey, hne, eraseKey] using ih

theorem lookupKey_filter_none {α : Type} (k : String) (p : String × α → Bool)
    (m : List (String × α)) (h : lookupKey k m = none) :
    lookupKey k (m.filter p) = none := by
  induction m with
  | nil => simp [lookupKey]
  | cons e rest ih =>
    simp only [lookupKey] at h
    by_cases he : e.1 = k
    · simp [he] at h
    · have hne : (e.1 == k) = false := by simp [he]
      simp only [hne] at h
      by_cases hp : p e
      · simp only [List.filter_cons, hp, if_true, lookupKey, hne]
        exact ih h
      · simp only [List.filter_cons, hp]
        exact ih h

/-! ### Order registry (BotService.orders)

OrderInfo mirrors the interface of the same name in the bot service.
The registry is process wide state: a Map from order identifier to
OrderInfo. -/

structure OrderInfo where
  chatId : Int
  userId : Int
  count : Nat
  isGift : Bool
  giftUsername : Option String
  description : String
  timestamp : String
  deriving Repr, DecidableEq

abbrev Registry := List (String × OrderInfo)

def saveOrderInfo (orderId : String) (oi : OrderInfo) (r : Registry) : Registry :=
  insertKey orderId oi r

def getOrderInfo (orderId : String) (r : Registry) : Option OrderInfo :=
  lookupKey orderId r

def removeOrderInfo (orderId : String) (r : Registry) : Registry :=
  eraseKey orderId r

theorem getOrderInfo_remove_self (orderId : String) (r : Registry) :
    getOrderInfo orderId (removeOrderInfo orderId r) = none :=
  lookupKey_eraseKey_self orderId r

/-! ### Duplicate suppressor (KassaWebhookService static state)

processedWebhooks maps a webhook key to the record stored by
markWebhookAsProcessed: first seen timestamp and order identifier.
Timestamps are naturals (milliseconds).  WEBHOOK_TTL is one hour in
milliseconds, exactly the constant in the source. -/

structure ProcessedRecord where
  timestamp : Nat
  orderId : String
  deriving Repr, DecidableEq

abbrev DedupMap := List (String × ProcessedRecord)

def WEBHOOK_TTL : Nat := 60 * 60 * 1000

/-- cleanupExpiredWebhooks: drop every entry whose age now - timestamp is
strictly greater than WEBHOOK_TTL, keep the rest.  The source collects the
expired keys and deletes them; over a Map with unique keys that is the same
as this filter. -/
def cleanupExpiredWebhooks (now : Nat) (m : DedupMap) : DedupMap :=
  m.filter (fun e => !(decide (now - e.2.timestamp > WEBHOOK_TTL)))

/-- isWebhookAlreadyProcessed: sweep expired entries, then membership test.
The sweep mutates the shared Map, so the swept map is returned as well. -/
def isWebhookAlreadyProcessed (now : Nat) (key : String) (m : DedupMap) :
    Bool × DedupMap :=
  let m2 := cleanupExpiredWebhooks now m
  (containsKey key m2, m2)

def markWebhookAsProcessed (now : Nat) (key : String) (orderId : String)
    (m : DedupMap) : DedupMap :=
  insertKey key ⟨now, orderId⟩ m

/-- The claim step of the duplicate suppressor exactly as processWebhook
uses it: check isWebhookAlreadyProcessed, skip when present, otherwise mark
with the current timestamp and proceed.  First component true means proceed
(not previously claimed). -/
def claimWebhook (now : Nat) (key : String) (orderId : String) (m : DedupMap) :
    Bool × DedupMap :=
  let (dup, m2) := isWebhookAlreadyProcessed now key m
  if dup then (false, m2) else (true, markWebhookAsProcessed now key orderId m2)

/-- The release step: the delete call on the processed webhooks Map in the
error branch of processWebhook. -/
def releaseWebhook (key : String) (m : DedupMap) : DedupMap :=
  eraseKey key m

/-! ### Observable effects of webhook processing

Each webhook service is embedded as a state transformer returning the new
state together with the list of observable effects it performed, in source
order.  buyStars records an attempt at the Fragment provisioning call
(performed whether or not the call then succeeds); notifySuccess and
notifyError are the two bot notifications, which catch their own delivery
errors in the source and therefore never throw; logWarn is a logged
warning; audit records a transaction logger call by method name. -/

inductive Effect where
  | logWarn (msg : String)
  | buyStars (username : String) (quantity : Nat) (showSender : Bool)
  | notifySuccess (chatId : Int) (count : Nat) (isGift : Bool)
      (recipientUsername : String) (fragmentOrderId : String)
  | notifyError (chatId : Int) (count : Nat) (isGift : Bool) (errorMessage : String)
  | audit (method : String)
  deriving Repr, DecidableEq

def isBuyStarsEffect : Effect → Bool
  | .buyStars _ _ _ => true
  | _ => false

def isNotificationEffect : Effect → Bool
  | .notifySuccess _ _ _ _ _ => true
  | .notifyError _ _ _ _ => true
  | _ => false

def isSuccessNotifyEffect : Effect → Bool
  | .notifySuccess _ _ _ _ _ => true
  | _ => false

def isErrorNotifyEffect : Effect → Bool
  | .notifyError _ _ _ _ => true
  | _ => false

def isWarnEffect : Effect → Bool
  | .logWarn _ => true
  | _ => false

def countBuyStars (es : List Effect) : Nat := (es.filter isBuyStarsEffect).length

def countNotifications (es : List Effect) : Nat :=
  (es.filter isNotificationEffect).length

def countSuccessNotify (es : List Effect) : Nat :=
  (es.filter isSuccessNotifyEffect).length

def countErrorNotify (es : List Effect) : Nat :=
  (es.filter isErrorNotifyEffect).length

def countWarn (es : List Effect) : Nat := (es.filter isWarnEffect).length

/-- Result of the Fragment order stars call, as far as the webhook services
consume it.  Only the order identifier is read by the modelled logic; the
remaining response fields are only printed. -/
structure StarsOrder where
  id : String
  deriving Repr, DecidableEq

/-- Outcome oracle of one buyStars call: ok with the Fragment order on
success, error with the thrown message on failure. -/
abbrev BuyOracle := Except String StarsOrder

/-- Oracle for getUsernameById: the username of a Telegram user, none when
the lookup fails or the user has no username (the source maps both cases to
null through its own catch). -/
abbrev UsernameOracle := Int → Option String

def userFallbackHandle (userId : Int) : String := "user_" ++ toString userId

/-- Recipient selection shared verbatim by the Kassa, WATA and PayID19
success handlers: a gift with a truthy recipient handle wins, otherwise the
resolved username of the requester with the synthesized fallback handle when
resolution yields nothing.  The empty string guard mirrors JavaScript
falsiness of the empty string under the logical or. -/
def determineRecipient (usernameById : UsernameOracle) (oi : OrderInfo) : String :=
  if oi.isGift && !((oi.giftUsername.getD "") == "") then oi.giftUsername.getD ""
  else
    match usernameById oi.userId with
    | some u => if u == "" then userFallbackHandle oi.userId else u
    | none => userFallbackHandle oi.userId

/-! ### KassaWebhookService -/

/-- Fields of the P2PKassa webhook payload consumed by the processing
logic.  The monetary fields are only printed by the service and are omitted
from the model of the processing (they do matter for the signature, see the
signature section). -/
structure KassaPayload where
  id : String
  order_id : String
  deriving Repr, DecidableEq

/-- handleSuccessfulPayment of KassaWebhookService.  Looks the order up,
warns and stops when absent; otherwise attempts the Fragment call with
show sender true and, in its own try catch, either notifies success and
removes the order, or swallows the error and notifies failure (keeping the
order).  The function never propagates the provisioning error. -/
def kassaHandleSuccessfulPayment (usernameById : UsernameOracle)
    (buyRes : BuyOracle) (r : Registry) (orderId : String) :
    Registry × List Effect :=
  match getOrderInfo orderId r with
  | none => (r, [.logWarn ("Order info not found for " ++ orderId)])
  | some oi =>
    let recipient := determineRecipient usernameById oi
    match buyRes with
    | .ok fo =>
        (removeOrderInfo orderId r,
          [.buyStars recipient oi.count true,
           .notifySuccess oi.chatId oi.count oi.isGift recipient fo.id])
    | .error e =>
        (r, [.buyStars recipient oi.count true,
             .notifyError oi.chatId oi.count oi.isGift e])

/-- Combined mutable state touched by KassaWebhookService: the static
duplicate suppressor Map and the order registry. -/
structure KassaState where
  dedup : DedupMap
  registry : Registry
  deriving Repr, DecidableEq

/-- processWebhook of KassaWebhookService.  Dedup key is id underscore
order id.  A duplicate is skipped with a warning.  Otherwise the webhook is
marked processed, the successful payment handler runs (it cannot throw, its
inner catch swallows the provisioning error), and the webhook success audit
record is written.  The catch branch of the source, which would write the
failure audit record and release the dedup claim, is unreachable for
provisioning failures because of that inner catch. -/
def kassaProcessWebhook (usernameById : UsernameOracle) (buyRes : BuyOracle)
    (now : Nat) (p : KassaPayload) (st : KassaState) :
    KassaState × List Effect :=
  let webhookKey := p.id ++ "_" ++ p.order_id
  let (dup, dedup2) := isWebhookAlreadyProcessed now webhookKey st.dedup
  if dup then
    (⟨dedup2, st.registry⟩,
      [.logWarn ("Duplicate webhook detected: " ++ webhookKey)])
  else
    let dedup3 := markWebhookAsProcessed now webhookKey p.order_id dedup2
    let res := kassaHandleSuccessfulPayment usernameById buyRes st.registry p.order_id
    (⟨dedup3, res.1⟩, res.2 ++ [.audit "logWebhookSuccess"])

/-! ### WataWebhookService -/

/-- Fields of the WATA webhook payload consumed by the processing logic. -/
structure WataPayload where
  transactionId : String
  transactionStatus : String
  orderId : String
  errorDescription : Option String
  deriving Repr, DecidableEq

/-- handleSuccessfulPayment of WataWebhookService: same recipient logic as
the Kassa service, but the Fragment call passes show sender false, and the
transaction logger is called around the notification (success transaction
record, success notification, webhook success record; on failure processing
error record, webhook failed record, failure notification). -/
def wataHandleSuccessfulPayment (usernameById : UsernameOracle)
    (buyRes : BuyOracle) (r : Registry) (p : WataPayload) :
    Registry × List Effect :=
  match getOrderInfo p.orderId r with
  | none => (r, [.logWarn ("Order info not found for " ++ p.orderId)])
  | some oi =>
    let recipient := determineRecipient usernameById oi
    match buyRes with
    | .ok fo =>
        (removeOrderInfo p.orderId r,
          [.buyStars recipient oi.count false,
           .audit "logSuccessfulTransaction",
           .notifySuccess oi.chatId oi.count oi.isGift recipient fo.id,
           .audit "logWebhookSuccess"])
    | .error e =>
        (r, [.buyStars recipient oi.count false,
             .audit "logProcessingError",
             .audit "logWebhookFailed",
             .notifyError oi.chatId oi.count oi.isGift e])

/-- handleFailedPayment of WataWebhookService: failed transaction audit
record, then, when the order is known, a rejection notification and removal
of the order. -/
def wataHandleFailedPayment (r : Registry) (p : WataPayload) :
    Registry × List Effect :=
  match getOrderInfo p.orderId r with
  | none => (r, [.audit "logFailedTransaction"])
  | some oi =>
    (removeOrderInfo p.orderId r,
      [.audit "logFailedTransaction",
       .notifyError oi.chatId oi.count oi.isGift
         ("Платёж отклонён: " ++ (p.errorDescription.getD "Неизвестная ошибка"))])

/-- processWebhook of WataWebhookService.  No duplicate suppression of any
kind: the status dispatch goes straight to the handlers. -/
def wataProcessWebhook (usernameById : UsernameOracle) (buyRes : BuyOracle)
    (r : Registry) (p : WataPayload) : Registry × List Effect :=
  if p.transactionStatus == "Paid" then
    wataHandleSuccessfulPayment usernameById buyRes r p
  else if p.transactionStatus == "Declined" then
    wataHandleFailedPayment r p
  else (r, [])

/-! ### PayID19WebhookService -/

/-- Fields of the PayID19 webhook payload consumed by the modelled logic.
Optional fields model possibly absent JSON members; test mirrors the
numeric test flag. -/
structure Payid19Payload where
  private_key : Option String
  id : String
  order_id : Option String
  description : Option String
  test : Option Nat
  deriving Repr, DecidableEq

/-- Stop characters of the character class in the recipient regular
expression: whitespace or the vertical bar. -/
def isStopChar (c : Char) : Bool := c.isWhitespace || c == '|'

/-- The literal part of the recipient pattern. -/
def recipientMarker : List Char := "recipient:".toList

/-- Leading match test for a literal against a character list. -/
def leadsWith : List Char → List Char → Bool
  | [], _ => true
  | _ :: _, [] => false
  | a :: as, b :: bs => a == b && leadsWith as bs

/-- Scan of the description for the first position where the literal
recipient marker is followed by at least one non stop character, capturing
the maximal run of non stop characters after the marker: the first match
and first capture group of the source regular expression. -/
def findRecipient : List Char → Option (List Char)
  | [] => none
  | c :: cs =>
    if leadsWith recipientMarker (c :: cs) then
      match (c :: cs).drop recipientMarker.length with
      | [] => findRecipient cs
      | d :: ds =>
        if isStopChar d then findRecipient cs
        else some ((d :: ds).takeWhile (fun x => !(isStopChar x)))
    else findRecipient cs

/-- Username extraction from the webhook description field in the PayID19
success handler: when the description is present and the pattern matches,
the first capture group. -/
def extractRecipient (description : Option String) : Option String :=
  match description with
  | none => none
  | some s => (findRecipient s.toList).map (fun l => String.mk l)

/-- Recipient selection of the PayID19 success handler: the username
extracted from the webhook description wins; only when no match is present
are the stored order data consulted (with the same gift and self logic as
the other providers). -/
def payid19DetermineRecipient (usernameById : UsernameOracle)
    (description : Option String) (oi : OrderInfo) : String :=
  match extractRecipient description with
  | some u => u
  | none => determineRecipient usernameById oi

/-- handleSuccessfulPayment of PayID19WebhookService.  Order lookup with a
warning stop when absent; recipient selection with the description
override; a guard that fails when no recipient could be determined (dead in
practice since every branch yields a non empty handle); the Fragment call
with show sender true; audit records and notifications as in the source
order. -/
def payid19HandleSuccessfulPayment (usernameById : UsernameOracle)
    (buyRes : BuyOracle) (r : Registry) (p : Payid19Payload) :
    Registry × List Effect :=
  let orderId := p.order_id.getD ""
  match getOrderInfo orderId r with
  | none => (r, [.logWarn ("Order info not found for " ++ orderId)])
  | some oi =>
    let recipient := payid19DetermineRecipient usernameById p.description oi
    if recipient == "" then
      (r, [.audit "logProcessingError",
           .audit "logWebhookFailed",
           .notifyError oi.chatId oi.count oi.isGift
             "Не удалось определить username получателя"])
    else
      match buyRes with
      | .ok fo =>
          (removeOrderInfo orderId r,
            [.buyStars recipient oi.count true,
             .audit "logSuccessfulTransaction",
             .notifySuccess oi.chatId oi.count oi.isGift recipient fo.id,
             .audit "logWebhookSuccess"])
      | .error e =>
          (r, [.buyStars recipient oi.count true,
               .audit "logProcessingError",
               .audit "logWebhookFailed",
               .notifyError oi.chatId oi.count oi.isGift e])

/-- processWebhook of PayID19WebhookService: a missing or empty order
identifier stops processing with a warning, otherwise the success handler
runs (PayID19 only sends webhooks for successful payments).  No duplicate
suppression exists on this path. -/
def payid19ProcessWebhook (usernameById : UsernameOracle) (buyRes : BuyOracle)
    (r : Registry) (p : Payid19Payload) : Registry × List Effect :=
  if (p.order_id.getD "") == "" then
    (r, [.logWarn "Missing order_id in PayID19 webhook payload"])
  else payid19HandleSuccessfulPayment usernameById buyRes r p

/-! ### PayID19 verification (PayID19Service.validateWebhook and the
dedicated webhook controller) -/

/-- validateWebhook of PayID19Service: direct equality between the locally
configured private key and the private key field echoed in the payload
(after the controller has coerced an absent field to the empty string). -/
def payid19ValidateWebhook (configuredPrivateKey : String)
    (p : Payid19Payload) : Bool :=
  (p.private_key.getD "") == configuredPrivateKey

/-- The skip condition computed by PayID19WebhookController.handleWebhook:
test flag equal to one, or falsy private key, or falsy order identifier. -/
def payid19SkipValidation (p : Payid19Payload) : Bool :=
  (p.test == some 1) || ((p.private_key.getD "") == "") || ((p.order_id.getD "") == "")

/-- Outcome of the PayID19 webhook controller decision: whether the request
is rejected with a bad request error, whether the private key check was
skipped, and whether processWebhook is invoked. -/
structure Payid19CtrlOutcome where
  rejected : Bool
  validationSkipped : Bool
  processInvoked : Bool
  deriving Repr, DecidableEq

/-- handleWebhook of PayID19WebhookController, up to the invocation of
processWebhook: compute the skip condition; when validation is not skipped
and the key comparison fails, throw the bad request error (which the catch
rethrows); otherwise invoke processing.  Errors thrown by processing itself
are converted to a success acknowledgment and do not affect this
decision. -/
def payid19HandleWebhookDecision (configuredPrivateKey : String)
    (p : Payid19Payload) : Payid19CtrlOutcome :=
  if payid19SkipValidation p then
    { rejected := false, validationSkipped := true, processInvoked := true }
  else if payid19ValidateWebhook configuredPrivateKey p then
    { rejected := false, validationSkipped := false, processInvoked := true }
  else
    { rejected := true, validationSkipped := false, processInvoked := false }

/-! ### KassaSignatureService

The SHA-256 and SHA-512 primitives of the node crypto library are external
collaborators; the verifier is embedded as a function of an abstract hex
digest oracle, so that everything around the digest (field checks, the
exact concatenation that is hashed, the case insensitive comparison) is
explicit.  Monetary amounts arrive as JSON numbers with at most two decimal
places; they are modelled as a natural number of hundredths so that the
toFixed formatting is an exact function. -/

/-- Webhook payload fields destructured by verifyWebhookSignature.  An
absent field is none; amountCents is the amount in hundredths of the
currency unit. -/
structure KassaSigPayload where
  id : Option String
  order_id : Option String
  project_id : Option Nat
  amountCents : Option Nat
  currency : Option String
  sign : Option String
  deriving Repr, DecidableEq

/-- JavaScript falsiness of an optional string: absent or empty. -/
def strFalsy (o : Option String) : Bool := (o.getD "") == ""

/-- JavaScript falsiness of an optional number: absent or zero. -/
def natFalsy (o : Option Nat) : Bool := (o.getD 0) == 0

/-- The toFixed formatting with two decimal places of a non negative
amount given in hundredths: integral part, a dot, exactly two digits. -/
def toFixed2 (cents : Nat) : String :=
  toString (cents / 100) ++ "." ++
    (if cents % 100 < 10 then "0" else "") ++ toString (cents % 100)

/-- The exact string hashed by verifyWebhookSignature: api key, id, order
id, project id rendered as a number, the amount formatted to two decimal
places, currency. -/
def kassaStringToSign (apiKey : String) (id orderId : String)
    (projectId : Nat) (amountCents : Nat) (currency : String) : String :=
  apiKey ++ id ++ orderId ++ toString projectId ++ toFixed2 amountCents ++ currency

/-- verifyWebhookSignature of KassaSignatureService: every falsy required
field fails verification before any digest is computed; otherwise the
SHA-256 hex digest of the documented concatenation is compared to the sign
field after lowercasing both sides. -/
def verifyWebhookSignature (sha256hex : String → String) (apiKey : String)
    (p : KassaSigPayload) : Bool :=
  if strFalsy p.id || strFalsy p.order_id || natFalsy p.project_id ||
      natFalsy p.amountCents || strFalsy p.currency || strFalsy p.sign then
    false
  else
    let expectedSign :=
      sha256hex (kassaStringToSign apiKey (p.id.getD "") (p.order_id.getD "")
        (p.project_id.getD 0) (p.amountCents.getD 0) (p.currency.getD ""))
    expectedSign.toLower == (p.sign.getD "").toLower

/-- createApiSignature of KassaSignatureService: the outbound payment
creation signature, a SHA-512 hex digest over api key, order id, project
id, the raw amount rendered as a number, and the literal currency RUB.  It
is a distinct operation from the webhook verifier: different digest
algorithm, different concatenation (no two decimal formatting, no payment
id, fixed currency literal). -/
def createApiSignature (sha512hex : String → String) (apiKey orderId projectId : String)
    (amount : Nat) : String :=
  sha512hex (apiKey ++ orderId ++ projectId ++ toString amount ++ "RUB")

/-! ### WataSignatureService

The RSA verification over the exact body bytes, including the public key
retrieval and the base64 decoding of the header, happens inside one try
block whose catch maps every thrown error to a false result; the body of
that try block is taken as an oracle that either produces a boolean verdict
or throws.  The missing header check precedes the try block. -/

/-- Oracle for the fallible part of the WATA verifier: given the raw body
and the signature header, either the RSA verdict or a thrown error. -/
abbrev RsaOracle := String → String → Except String Bool

/-- verifySignature of WataSignatureService as an Except valued function:
an error value would mean an exception escaping to the caller.  A falsy
(absent or empty) signature returns false immediately; any error thrown by
key loading, decoding or verification is caught and mapped to false. -/
def wataVerifySignatureE (rsaVerify : RsaOracle) (rawBody : String)
    (signature : Option String) : Except String Bool :=
  if (signature.getD "") == "" then .ok false
  else
    match rsaVerify rawBody (signature.getD "") with
    | .ok verdict => .ok verdict
    | .error _ => .ok false

/-! ### RootWebhookController

The WATA branch of the root webhook controller logs that signature
verification is disabled, attempts the verification purely for logging
(catching its errors), and then processes the webhook unconditionally,
acknowledging with HTTP 200 and success true.  An HTTP response is either
a 200 acknowledgment with a success flag or a 400 bad request. -/

inductive HttpResponse where
  | ok (success : Bool)
  | badRequest
  deriving Repr, DecidableEq

/-- handleWataWebhook of RootWebhookController: the verification result is
computed (when it throws, the error is caught and logged) but never gates
anything; processWebhook always runs and the response is 200 success. -/
def rootHandleWataWebhook (usernameById : UsernameOracle) (buyRes : BuyOracle)
    (sigResult : Except String Bool) (r : Registry) (p : WataPayload) :
    HttpResponse × Registry × List Effect :=
  let _ := sigResult
  let res := wataProcessWebhook usernameById buyRes r p
  (.ok true, res.1, res.2)

/-- handleWebhook of KassaWebhookController, reduced to its decision: a
payload structure failure or signature failure raises the bad request error
inside the try block, but the catch converts every error into a 200
acknowledgment with body status error; a verified payload is processed and
acknowledged with 200 status ok.  The second component records whether
processWebhook was invoked. -/
def kassaHandleWebhookDecision (payloadStructValid : Bool) (sigValid : Bool) :
    HttpResponse × Bool :=
  if !payloadStructValid then (.ok false, false)
  else if !sigValid then (.ok false, false)
  else (.ok true, true)

/-! ### Helper lemmas -/

theorem containsKey_eq_false_iff {α : Type} (k : String) (m : List (String × α)) :
    containsKey k m = false ↔ lookupKey k m = none := by
  unfold containsKey
  cases lookupKey k m <;> simp

theorem containsKey_cleanup_false (now : Nat) (k : String) (m : DedupMap)
    (h : containsKey k m = false) :
    containsKey k (cleanupExpiredWebhooks now m) = false := by
  rw [containsKey_eq_false_iff] at h ⊢
  exact lookupKey_filter_none k _ m h

/-- C6: for every dedup key, a claim immediately followed by a claim of the
same key returns true then false; after a release a subsequent claim
returns true again; and a claim issued more than the one hour TTL after a
successful first claim returns true. -/
theorem dedup_claim_claim_release_ttl :
    (∀ (now : Nat) (k oid oid2 : String) (m : DedupMap),
      containsKey k m = false →
        (claimWebhook now k oid m).1 = true ∧
        (claimWebhook now k oid2 (claimWebhook now k oid m).2).1 = false)
    ∧ (∀ (now : Nat) (k oid : String) (m : DedupMap),
        (claimWebhook now k oid (releaseWebhook k m)).1 = true)
    ∧ (∀ (now1 now2 : Nat) (k oid oid2 : String) (m : DedupMap),
        (claimWebhook now1 k oid m).1 = true →
        now2 - now1 > WEBHOOK_TTL →
        (claimWebhook now2 k oid2 (claimWebhook now1 k oid m).2).1 = true) := by
  refine ⟨?_, ?_, ?_⟩
  · intro now k oid oid2 m h
    have hdup : containsKey k (cleanupExpiredWebhooks now m) = false :=
      containsKey_cleanup_false now k m h
    have hstate : (claimWebhook now k oid m).2 =
        insertKey k ⟨now, oid⟩ (cleanupExpiredWebhooks now m) := by
      simp [claimWebhook, isWebhookAlreadyProcessed, hdup, markWebhookAsProcessed]
    constructor
    · simp [claimWebhook, isWebhookAlreadyProcessed, hdup]
    · rw [hstate]
      have hhead : containsKey k (cleanupExpiredWebhooks now
          (insertKey k ⟨now, oid⟩ (cleanupExpiredWebhooks now m))) = true := by
        simp [insertKey, cleanupExpiredWebhooks, List.filter_cons, containsKey,
          lookupKey, WEBHOOK_TTL, Nat.sub_self]
      simp [claimWebhook, isWebhookAlreadyProcessed, hhead]
  · intro now k oid m
    have hn : lookupKey k (eraseKey k m) = (none : Option ProcessedRecord) :=
      lookupKey_eraseKey_self k m
    have hcl : lookupKey k (cleanupExpiredWebhooks now (eraseKey k m)) = none :=
      lookupKey_filter_none k _ _ hn
    have hdup : containsKey k (cleanupExpiredWebhooks now (eraseKey k m)) = false := by
      rw [containsKey_eq_false_iff]; exact hcl
    simp [claimWebhook, isWebhookAlreadyProcessed, releaseWebhook, hdup]
  · intro now1 now2 k oid oid2 m h1 httl
    by_cases hdup : containsKey k (cleanupExpiredWebhooks now1 m) = true
    · simp [claimWebhook, isWebhookAlreadyProcessed, hdup] at h1
    · have hdup2 : containsKey k (cleanupExpiredWebhooks now1 m) = false := by
        simpa using hdup
      have hstate : (claimWebhook now1 k oid m).2 =
          insertKey k ⟨now1, oid⟩ (cleanupExpiredWebhooks now1 m) := by
        simp [claimWebhook, isWebhookAlreadyProcessed, hdup2, markWebhookAsProcessed]
      rw [hstate]
      have hexp : (!(decide (now2 - (⟨now1, oid⟩ : ProcessedRecord).timestamp > WEBHOOK_TTL))) = false := by
        simpa using httl
      have htail : lookupKey k (cleanupExpiredWebhooks now2
          (eraseKey k (cleanupExpiredWebhooks now1 m))) = none :=
        lookupKey_filter_none k _ _ (lookupKey_eraseKey_self k _)
      have hdup3 : containsKey k (cleanupExpiredWebhooks now2
          (insertKey k ⟨now1, oid⟩ (cleanupExpiredWebhooks now1 m))) = false := by
        rw [containsKey_eq_false_iff]
        simp only [insertKey, cleanupExpiredWebhooks, List.filter_cons]
        rw [show (!(decide (now2 - (⟨now1, oid⟩ : ProcessedRecord).timestamp > WEBHOOK_TTL))) = false from hexp]
        simpa [cleanupExpiredWebhooks] using htail
      simp [claimWebhook, isWebhookAlreadyProcessed, hdup3]

/-- Witness for the dedup algebra at concrete inputs: key claimed at
millisecond zero, re-claimed in the same millisecond, and claimed again one
millisecond past the one hour TTL on the post claim state. -/
theorem dedup_claim_claim_release_ttl_witness :
    (claimWebhook 0 "pay-1_ord-1" "ord-1" []).1 = true ∧
    (claimWebhook 0 "pay-1_ord-1" "ord-1"
      (claimWebhook 0 "pay-1_ord-1" "ord-1" []).2).1 = false ∧
    (claimWebhook 5 "pay-1_ord-1" "ord-1"
      (releaseWebhook "pay-1_ord-1"
        (claimWebhook 0 "pay-1_ord-1" "ord-1" []).2)).1 = true ∧
    (claimWebhook 3600001 "pay-1_ord-1" "ord-1"
      (claimWebhook 0 "pay-1_ord-1" "ord-1" []).2).1 = true := by
  have h0 : containsKey "pay-1_ord-1" ([] : DedupMap) = false := by decide
  refine ⟨(dedup_claim_claim_release_ttl.1 0 "pay-1_ord-1" "ord-1" "ord-1" [] h0).1,
          (dedup_claim_claim_release_ttl.1 0 "pay-1_ord-1" "ord-1" "ord-1" [] h0).2,
          dedup_claim_claim_release_ttl.2.1 5 "pay-1_ord-1" "ord-1" _,
          dedup_claim_claim_release_ttl.2.2 0 3600001 "pay-1_ord-1" "ord-1" "ord-1" []
            (dedup_claim_claim_release_ttl.1 0 "pay-1_ord-1" "ord-1" "ord-1" [] h0).1
            (by decide)⟩

/-- C8: a verified webhook whose order identifier was never registered
results in zero provisioning calls, zero notifications, one logged warning
and an unchanged registry, in each of the three provider success
handlers. -/
theorem unknown_order_zero_provisioning_zero_notifications :
    (∀ (ub : UsernameOracle) (b : BuyOracle) (r : Registry) (orderId : String),
      getOrderInfo orderId r = none →
        countBuyStars (kassaHandleSuccessfulPayment ub b r orderId).2 = 0 ∧
        countNotifications (kassaHandleSuccessfulPayment ub b r orderId).2 = 0 ∧
        countWarn (kassaHandleSuccessfulPayment ub b r orderId).2 = 1 ∧
        (kassaHandleSuccessfulPayment ub b r orderId).1 = r)
    ∧ (∀ (ub : UsernameOracle) (b : BuyOracle) (r : Registry) (p : WataPayload),
      getOrderInfo p.orderId r = none →
        countBuyStars (wataHandleSuccessfulPayment ub b r p).2 = 0 ∧
        countNotifications (wataHandleSuccessfulPayment ub b r p).2 = 0 ∧
        countWarn (wataHandleSuccessfulPayment ub b r p).2 = 1 ∧
        (wataHandleSuccessfulPayment ub b r p).1 = r)
    ∧ (∀ (ub : UsernameOracle) (b : BuyOracle) (r : Registry) (p : Payid19Payload),
      getOrderInfo (p.order_id.getD "") r = none →
        countBuyStars (payid19HandleSuccessfulPayment ub b r p).2 = 0 ∧
        countNotifications (payid19HandleSuccessfulPayment ub b r p).2 = 0 ∧
        countWarn (payid19HandleSuccessfulPayment ub b r p).2 = 1 ∧
        (payid19HandleSuccessfulPayment ub b r p).1 = r) := by
  refine ⟨?_, ?_, ?_⟩
  · intro ub b r orderId h
    simp [kassaHandleSuccessfulPayment, h, countBuyStars, countNotifications,
      countWarn, isBuyStarsEffect, isNotificationEffect, isWarnEffect]
  · intro ub b r p h
    simp [wataHandleSuccessfulPayment, h, countBuyStars, countNotifications,
      countWarn, isBuyStarsEffect, isNotificationEffect, isWarnEffect]
  · intro ub b r p h
    simp [payid19HandleSuccessfulPayment, h, countBuyStars, countNotifications,
      countWarn, isBuyStarsEffect, isNotificationEffect, isWarnEffect]

/-- Witness for the unknown order property: empty registry, concrete
payloads, a succeeding provisioning oracle. -/
theorem unknown_order_zero_provisioning_zero_notifications_witness :
    countBuyStars (kassaHandleSuccessfulPayment (fun _ => none)
      (.ok ⟨"frag-1"⟩) [] "ord-x").2 = 0 ∧
    countNotifications (wataHandleSuccessfulPayment (fun _ => none)
      (.ok ⟨"frag-1"⟩) [] ⟨"tx-1", "Paid", "ord-x", none⟩).2 = 0 ∧
    countWarn (payid19HandleSuccessfulPayment (fun _ => none)
      (.ok ⟨"frag-1"⟩) [] ⟨some "pk", "inv-1", some "ord-x", none, some 0⟩).2 = 1 := by
  have h : getOrderInfo "ord-x" ([] : Registry) = none := by decide
  exact ⟨(unknown_order_zero_provisioning_zero_notifications.1
            (fun _ => none) (.ok ⟨"frag-1"⟩) [] "ord-x" h).1,
         (unknown_order_zero_provisioning_zero_notifications.2.1
            (fun _ => none) (.ok ⟨"frag-1"⟩) [] ⟨"tx-1", "Paid", "ord-x", none⟩ h).2.1,
         (unknown_order_zero_provisioning_zero_notifications.2.2
            (fun _ => none) (.ok ⟨"frag-1"⟩) []
            ⟨some "pk", "inv-1", some "ord-x", none, some 0⟩ h).2.2.1⟩

/-- C7: on a successful provisioning call for a registered order, the Kassa
success handler and the WATA paid processing path each emit exactly one
success notification, addressed to the chat of the requester, carrying the
quantity, the selected recipient and the external Fragment order
identifier, and the order is removed from the registry afterwards; when the
order is a gift with a truthy handle, the selected recipient is exactly
that handle. -/
theorem success_path_single_notification_and_removal :
    (∀ (ub : UsernameOracle) (fo : StarsOrder) (r : Registry)
        (orderId : String) (oi : OrderInfo),
      getOrderInfo orderId r = some oi →
        (kassaHandleSuccessfulPayment ub (.ok fo) r orderId).2 =
          [.buyStars (determineRecipient ub oi) oi.count true,
           .notifySuccess oi.chatId oi.count oi.isGift
             (determineRecipient ub oi) fo.id] ∧
        countSuccessNotify (kassaHandleSuccessfulPayment ub (.ok fo) r orderId).2 = 1 ∧
        countBuyStars (kassaHandleSuccessfulPayment ub (.ok fo) r orderId).2 = 1 ∧
        getOrderInfo orderId (kassaHandleSuccessfulPayment ub (.ok fo) r orderId).1 = none)
    ∧ (∀ (ub : UsernameOracle) (fo : StarsOrder) (r : Registry)
        (p : WataPayload) (oi : OrderInfo),
      p.transactionStatus = "Paid" →
      getOrderInfo p.orderId r = some oi →
        (wataProcessWebhook ub (.ok fo) r p).2 =
          [.buyStars (determineRecipient ub oi) oi.count false,
           .audit "logSuccessfulTransaction",
           .notifySuccess oi.chatId oi.count oi.isGift
             (determineRecipient ub oi) fo.id,
           .audit "logWebhookSuccess"] ∧
        countSuccessNotify (wataProcessWebhook ub (.ok fo) r p).2 = 1 ∧
        countBuyStars (wataProcessWebhook ub (.ok fo) r p).2 = 1 ∧
        getOrderInfo p.orderId (wataProcessWebhook ub (.ok fo) r p).1 = none)
    ∧ (∀ (ub : UsernameOracle) (oi : OrderInfo),
        oi.isGift = true → (oi.giftUsername.getD "") ≠ "" →
        determineRecipient ub oi = oi.giftUsername.getD "") := by
  refine ⟨?_, ?_, ?_⟩
  · intro ub fo r orderId oi h
    refine ⟨?_, ?_, ?_, ?_⟩ <;>
      simp [kassaHandleSuccessfulPayment, h, countSuccessNotify, countBuyStars,
        isSuccessNotifyEffect, isBuyStarsEffect, getOrderInfo_remove_self]
  · intro ub fo r p oi hp h
    refine ⟨?_, ?_, ?_, ?_⟩ <;>
      simp [wataProcessWebhook, wataHandleSuccessfulPayment, hp, h,
        countSuccessNotify, countBuyStars, isSuccessNotifyEffect,
        isBuyStarsEffect, getOrderInfo_remove_self]
  · intro ub oi hg ht
    simp [determineRecipient, hg, ht]

/-- Witness for the success path: user 42 with no gift flag has registered
order ord-1 for one hundred stars, the username of the requester resolves,
the Fragment call succeeds with the external identifier BO-77. -/
theorem success_path_single_notification_and_removal_witness :
    countSuccessNotify (kassaHandleSuccessfulPayment (fun _ => some "alice")
      (.ok ⟨"BO-77"⟩) [("ord-1", ⟨42, 42, 100, false, none, "stars", "t0"⟩)]
      "ord-1").2 = 1 ∧
    getOrderInfo "ord-1" (kassaHandleSuccessfulPayment (fun _ => some "alice")
      (.ok ⟨"BO-77"⟩) [("ord-1", ⟨42, 42, 100, false, none, "stars", "t0"⟩)]
      "ord-1").1 = none ∧
    countSuccessNotify (wataProcessWebhook (fun _ => some "alice")
      (.ok ⟨"BO-77"⟩) [("ord-1", ⟨42, 42, 100, false, none, "stars", "t0"⟩)]
      ⟨"tx-9", "Paid", "ord-1", none⟩).2 = 1 ∧
    determineRecipient (fun _ => some "alice")
      ⟨42, 42, 100, true, some "bob", "gift", "t0"⟩ = "bob" := by
  have h : getOrderInfo "ord-1"
      ([("ord-1", ⟨42, 42, 100, false, none, "stars", "t0"⟩)] : Registry) =
      some ⟨42, 42, 100, false, none, "stars", "t0"⟩ := by decide
  refine ⟨(success_path_single_notification_and_removal.1 (fun _ => some "alice")
            ⟨"BO-77"⟩ _ "ord-1" _ h).2.1,
          (success_path_single_notification_and_removal.1 (fun _ => some "alice")
            ⟨"BO-77"⟩ _ "ord-1" _ h).2.2.2,
          (success_path_single_notification_and_removal.2.1 (fun _ => some "alice")
            ⟨"BO-77"⟩ _ ⟨"tx-9", "Paid", "ord-1", none⟩ _ rfl h).2.1,
          success_path_single_notification_and_removal.2.2 (fun _ => some "alice")
            ⟨42, 42, 100, true, some "bob", "gift", "t0"⟩ rfl (by decide)⟩

theorem cleanupExpiredWebhooks_idem (now : Nat) (m : DedupMap) :
    cleanupExpiredWebhooks now (cleanupExpiredWebhooks now m) =
      cleanupExpiredWebhooks now m := by
  unfold cleanupExpiredWebhooks
  rw [List.filter_eq_self]
  intro a ha
  exact (List.mem_filter.mp ha).2

/-- Shared concrete scenario: user 42 registered order ord-1 for a non gift
purchase of one hundred stars. -/
def sampleIntent : OrderInfo := ⟨42, 42, 100, false, none, "stars", "t0"⟩

def sampleRegistry : Registry := [("ord-1", sampleIntent)]

def sampleWataPaid : WataPayload := ⟨"tx-9", "Paid", "ord-1", none⟩

def samplePayid : Payid19Payload := ⟨some "pk", "inv-1", some "ord-1", none, some 0⟩

def sampleUsernames : UsernameOracle := fun _ => some "alice"

theorem userFallbackHandle_ne_empty (userId : Int) :
    userFallbackHandle userId ≠ "" := by
  intro h
  have hl := congrArg String.length h
  have h5 : ("user_" : String).length = 5 := rfl
  simp [userFallbackHandle, String.length_append, h5] at hl

theorem findRecipient_ne_nil (cs : List Char) (l : List Char)
    (h : findRecipient cs = some l) : l ≠ [] := by
  induction cs with
  | nil => simp [findRecipient] at h
  | cons c cs ih =>
    rw [findRecipient] at h
    by_cases hw : leadsWith recipientMarker (c :: cs) = true
    · rw [if_pos hw] at h
      cases hd : (c :: cs).drop recipientMarker.length with
      | nil =>
        rw [hd] at h
        exact ih h
      | cons d ds =>
        rw [hd] at h
        replace h : (if isStopChar d = true then findRecipient cs
            else some ((d :: ds).takeWhile (fun x => !(isStopChar x)))) = some l := h
        by_cases hs : isStopChar d = true
        · rw [if_pos hs] at h
          exact ih h
        · have hs2 : isStopChar d = false := by simpa using hs
          rw [if_neg (by simp [hs2])] at h
          have hl := Option.some.inj h
          rw [← hl]
          simp [List.takeWhile_cons, hs2]
    · rw [if_neg hw] at h
      exact ih h

theorem extractRecipient_ne_empty (d : Option String) (u : String)
    (h : extractRecipient d = some u) : u ≠ "" := by
  cases d with
  | none => simp [extractRecipient] at h
  | some s =>
    simp only [extractRecipient] at h
    rw [Option.map_eq_some'] at h
    obtain ⟨l, hl, hu⟩ := h
    have hne := findRecipient_ne_nil s.toList l hl
    intro he
    rw [← hu] at he
    cases l with
    | nil => exact hne rfl
    | cons a as =>
      rw [String.ext_iff] at he
      replace he : a :: as = ([] : List Char) := he
      exact List.noConfusion he

theorem determineRecipient_ne_empty (ub : UsernameOracle) (oi : OrderInfo) :
    determineRecipient ub oi ≠ "" := by
  unfold determineRecipient
  by_cases hg : (oi.isGift && !((oi.giftUsername.getD "") == "")) = true
  · rw [if_pos hg]
    have h2 : ((oi.giftUsername.getD "") == "") = false := by
      have hp := (Bool.and_eq_true _ _).mp hg
      simpa using hp.2
    intro he
    rw [he] at h2
    simp at h2
  · rw [if_neg hg]
    cases hu : ub oi.userId with
    | none => exact userFallbackHandle_ne_empty oi.userId
    | some u =>
      show (if (u == "") = true then userFallbackHandle oi.userId else u) ≠ ""
      by_cases he : (u == "") = true
      · rw [if_pos he]
        exact userFallbackHandle_ne_empty oi.userId
      · rw [if_neg he]
        intro hu0
        rw [hu0] at he
        exact he rfl

theorem payid19DetermineRecipient_ne_empty (ub : UsernameOracle)
    (d : Option String) (oi : OrderInfo) :
    payid19DetermineRecipient ub d oi ≠ "" := by
  unfold payid19DetermineRecipient
  cases hx : extractRecipient d with
  | none => exact determineRecipient_ne_empty ub oi
  | some u => exact extractRecipient_ne_empty d u hx

/-- C2 counterexample: the WATA webhook handler performs no deduplication,
so delivering the identical paid payload twice while the provisioning call
is failing performs two provisioning attempts and two user notifications,
not exactly one of each as the claim states. -/
theorem wata_double_delivery_two_provisioning_calls :
    countBuyStars ((wataProcessWebhook sampleUsernames (.error "timeout")
        sampleRegistry sampleWataPaid).2 ++
      (wataProcessWebhook sampleUsernames (.error "timeout")
        (wataProcessWebhook sampleUsernames (.error "timeout")
          sampleRegistry sampleWataPaid).1 sampleWataPaid).2) = 2 ∧
    countNotifications ((wataProcessWebhook sampleUsernames (.error "timeout")
        sampleRegistry sampleWataPaid).2 ++
      (wataProcessWebhook sampleUsernames (.error "timeout")
        (wataProcessWebhook sampleUsernames (.error "timeout")
          sampleRegistry sampleWataPaid).1 sampleWataPaid).2) = 2 := by
  constructor <;> rfl

/-- C2 amended: only the Kassa handler deduplicates before fulfillment: an
immediate redelivery of the same payload to it performs no provisioning
call and no notification whatever the oracles do.  The WATA and PayID19
handlers perform no deduplication.  When a first delivery to either of
them finds the registered order and its provisioning call succeeds, the
registry removal makes the identical second delivery a no-op, for exactly
one provisioning call and one notification in total; when the first
provisioning call fails, the identical second delivery performs a second
provisioning attempt and a second notification, for two of each in
total. -/
theorem webhook_idempotence_amended :
    (∀ (ub1 ub2 : UsernameOracle) (b1 b2 : BuyOracle) (now : Nat)
        (p : KassaPayload) (st : KassaState),
      countBuyStars (kassaProcessWebhook ub2 b2 now p
        (kassaProcessWebhook ub1 b1 now p st).1).2 = 0 ∧
      countNotifications (kassaProcessWebhook ub2 b2 now p
        (kassaProcessWebhook ub1 b1 now p st).1).2 = 0)
    ∧ (∀ (ub1 ub2 : UsernameOracle) (fo : StarsOrder) (b2 : BuyOracle)
        (r : Registry) (p : WataPayload) (oi : OrderInfo),
      p.transactionStatus = "Paid" →
      getOrderInfo p.orderId r = some oi →
        countBuyStars ((wataProcessWebhook ub1 (.ok fo) r p).2 ++
          (wataProcessWebhook ub2 b2
            (wataProcessWebhook ub1 (.ok fo) r p).1 p).2) = 1 ∧
        countNotifications ((wataProcessWebhook ub1 (.ok fo) r p).2 ++
          (wataProcessWebhook ub2 b2
            (wataProcessWebhook ub1 (.ok fo) r p).1 p).2) = 1)
    ∧ (∀ (ub1 ub2 : UsernameOracle) (fo : StarsOrder) (b2 : BuyOracle)
        (r : Registry) (p : Payid19Payload) (oi : OrderInfo),
      (p.order_id.getD "") ≠ "" →
      getOrderInfo (p.order_id.getD "") r = some oi →
        countBuyStars ((payid19ProcessWebhook ub1 (.ok fo) r p).2 ++
          (payid19ProcessWebhook ub2 b2
            (payid19ProcessWebhook ub1 (.ok fo) r p).1 p).2) = 1 ∧
        countNotifications ((payid19ProcessWebhook ub1 (.ok fo) r p).2 ++
          (payid19ProcessWebhook ub2 b2
            (payid19ProcessWebhook ub1 (.ok fo) r p).1 p).2) = 1)
    ∧ (∀ (ub1 ub2 : UsernameOracle) (e : String) (b2 : BuyOracle)
        (r : Registry) (p : WataPayload) (oi : OrderInfo),
      p.transactionStatus = "Paid" →
      getOrderInfo p.orderId r = some oi →
        countBuyStars ((wataProcessWebhook ub1 (.error e) r p).2 ++
          (wataProcessWebhook ub2 b2
            (wataProcessWebhook ub1 (.error e) r p).1 p).2) = 2 ∧
        countNotifications ((wataProcessWebhook ub1 (.error e) r p).2 ++
          (wataProcessWebhook ub2 b2
            (wataProcessWebhook ub1 (.error e) r p).1 p).2) = 2)
    ∧ (∀ (ub1 ub2 : UsernameOracle) (e : String) (b2 : BuyOracle)
        (r : Registry) (p : Payid19Payload) (oi : OrderInfo),
      (p.order_id.getD "") ≠ "" →
      getOrderInfo (p.order_id.getD "") r = some oi →
        countBuyStars ((payid19ProcessWebhook ub1 (.error e) r p).2 ++
          (payid19ProcessWebhook ub2 b2
            (payid19ProcessWebhook ub1 (.error e) r p).1 p).2) = 2 ∧
        countNotifications ((payid19ProcessWebhook ub1 (.error e) r p).2 ++
          (payid19ProcessWebhook ub2 b2
            (payid19ProcessWebhook ub1 (.error e) r p).1 p).2) = 2) := by
  refine ⟨?_, ?_, ?_, ?_, ?_⟩
  · intro ub1 ub2 b1 b2 now p st
    by_cases hdup : containsKey (p.id ++ "_" ++ p.order_id)
        (cleanupExpiredWebhooks now st.dedup) = true
    · have hst1 : (kassaProcessWebhook ub1 b1 now p st).1 =
          ⟨cleanupExpiredWebhooks now st.dedup, st.registry⟩ := by
        simp [kassaProcessWebhook, isWebhookAlreadyProcessed, hdup]
      have hdup2 : containsKey (p.id ++ "_" ++ p.order_id)
          (cleanupExpiredWebhooks now
            (cleanupExpiredWebhooks now st.dedup)) = true := by
        rw [cleanupExpiredWebhooks_idem]; exact hdup
      rw [hst1]
      constructor <;>
        simp [kassaProcessWebhook, isWebhookAlreadyProcessed, hdup2,
          countBuyStars, countNotifications, isBuyStarsEffect,
          isNotificationEffect]
    · have hdupf : containsKey (p.id ++ "_" ++ p.order_id)
          (cleanupExpiredWebhooks now st.dedup) = false := by
        simpa using hdup
      have hst1 : (kassaProcessWebhook ub1 b1 now p st).1 =
          ⟨markWebhookAsProcessed now (p.id ++ "_" ++ p.order_id) p.order_id
              (cleanupExpiredWebhooks now st.dedup),
            (kassaHandleSuccessfulPayment ub1 b1 st.registry p.order_id).1⟩ := by
        simp [kassaProcessWebhook, isWebhookAlreadyProcessed, hdupf]
      have hhead : containsKey (p.id ++ "_" ++ p.order_id)
          (cleanupExpiredWebhooks now
            (markWebhookAsProcessed now (p.id ++ "_" ++ p.order_id) p.order_id
              (cleanupExpiredWebhooks now st.dedup))) = true := by
        simp [markWebhookAsProcessed, insertKey, cleanupExpiredWebhooks,
          List.filter_cons, containsKey, lookupKey, WEBHOOK_TTL, Nat.sub_self]
      rw [hst1]
      constructor <;>
        simp [kassaProcessWebhook, isWebhookAlreadyProcessed, hhead,
          countBuyStars, countNotifications, isBuyStarsEffect,
          isNotificationEffect]
  · intro ub1 ub2 fo b2 r p oi hp h
    have hrem : getOrderInfo p.orderId (removeOrderInfo p.orderId r) = none :=
      getOrderInfo_remove_self p.orderId r
    constructor <;>
      simp [wataProcessWebhook, wataHandleSuccessfulPayment, hp, h, hrem,
        countBuyStars, countNotifications, isBuyStarsEffect,
        isNotificationEffect, List.filter_append]
  · intro ub1 ub2 fo b2 r p oi hne h
    have hoid : ((p.order_id.getD "") == "") = false :=
      beq_eq_false_iff_ne.mpr hne
    have hrec1 : (payid19DetermineRecipient ub1 p.description oi == "") = false :=
      beq_eq_false_iff_ne.mpr (payid19DetermineRecipient_ne_empty ub1 p.description oi)
    have hrem : getOrderInfo (p.order_id.getD "")
        (removeOrderInfo (p.order_id.getD "") r) = none :=
      getOrderInfo_remove_self (p.order_id.getD "") r
    constructor <;>
      simp [payid19ProcessWebhook, payid19HandleSuccessfulPayment, hoid, h,
        hrec1, hrem, countBuyStars, countNotifications, isBuyStarsEffect,
        isNotificationEffect, List.filter_append]
  · intro ub1 ub2 e b2 r p oi hp h
    cases b2 with
    | ok fo2 =>
      constructor <;>
        simp [wataProcessWebhook, wataHandleSuccessfulPayment, hp, h,
          countBuyStars, countNotifications, isBuyStarsEffect,
          isNotificationEffect, List.filter_append]
    | error e2 =>
      constructor <;>
        simp [wataProcessWebhook, wataHandleSuccessfulPayment, hp, h,
          countBuyStars, countNotifications, isBuyStarsEffect,
          isNotificationEffect, List.filter_append]
  · intro ub1 ub2 e b2 r p oi hne h
    have hoid : ((p.order_id.getD "") == "") = false :=
      beq_eq_false_iff_ne.mpr hne
    have hrec1 : (payid19DetermineRecipient ub1 p.description oi == "") = false :=
      beq_eq_false_iff_ne.mpr (payid19DetermineRecipient_ne_empty ub1 p.description oi)
    have hrec2 : (payid19DetermineRecipient ub2 p.description oi == "") = false :=
      beq_eq_false_iff_ne.mpr (payid19DetermineRecipient_ne_empty ub2 p.description oi)
    cases b2 with
    | ok fo2 =>
      constructor <;>
        simp [payid19ProcessWebhook, payid19HandleSuccessfulPayment, hoid, h,
          hrec1, hrec2, countBuyStars, countNotifications, isBuyStarsEffect,
          isNotificationEffect, List.filter_append]
    | error e2 =>
      constructor <;>
        simp [payid19ProcessWebhook, payid19HandleSuccessfulPayment, hoid, h,
          hrec1, hrec2, countBuyStars, countNotifications, isBuyStarsEffect,
          isNotificationEffect, List.filter_append]

/-- Witness for the amended idempotence at concrete inputs: the Kassa
redelivery after a failing provisioning call performs nothing; the WATA and
PayID19 success redeliveries total one provisioning call each; the WATA and
PayID19 failure redeliveries total two provisioning attempts each. -/
theorem webhook_idempotence_amended_witness :
    countBuyStars (kassaProcessWebhook sampleUsernames (.error "timeout") 0
      ⟨"pay-1", "ord-1"⟩
      (kassaProcessWebhook sampleUsernames (.error "timeout") 0
        ⟨"pay-1", "ord-1"⟩ ⟨[], sampleRegistry⟩).1).2 = 0 ∧
    countBuyStars ((wataProcessWebhook sampleUsernames (.ok ⟨"BO-77"⟩)
        sampleRegistry sampleWataPaid).2 ++
      (wataProcessWebhook sampleUsernames (.ok ⟨"BO-77"⟩)
        (wataProcessWebhook sampleUsernames (.ok ⟨"BO-77"⟩)
          sampleRegistry sampleWataPaid).1 sampleWataPaid).2) = 1 ∧
    countBuyStars ((payid19ProcessWebhook sampleUsernames (.ok ⟨"BO-77"⟩)
        sampleRegistry samplePayid).2 ++
      (payid19ProcessWebhook sampleUsernames (.ok ⟨"BO-77"⟩)
        (payid19ProcessWebhook sampleUsernames (.ok ⟨"BO-77"⟩)
          sampleRegistry samplePayid).1 samplePayid).2) = 1 ∧
    countBuyStars ((wataProcessWebhook sampleUsernames (.error "timeout")
        sampleRegistry sampleWataPaid).2 ++
      (wataProcessWebhook sampleUsernames (.error "timeout")
        (wataProcessWebhook sampleUsernames (.error "timeout")
          sampleRegistry sampleWataPaid).1 sampleWataPaid).2) = 2 ∧
    countBuyStars ((payid19ProcessWebhook sampleUsernames (.error "timeout")
        sampleRegistry samplePayid).2 ++
      (payid19ProcessWebhook sampleUsernames (.error "timeout")
        (payid19ProcessWebhook sampleUsernames (.error "timeout")
          sampleRegistry samplePayid).1 samplePayid).2) = 2 := by
  have h : getOrderInfo "ord-1" sampleRegistry = some sampleIntent := by decide
  have hp : getOrderInfo (samplePayid.order_id.getD "") sampleRegistry =
      some sampleIntent := by decide
  have hne : (samplePayid.order_id.getD "") ≠ "" := by decide
  refine ⟨(webhook_idempotence_amended.1 sampleUsernames sampleUsernames
            (.error "timeout") (.error "timeout") 0 ⟨"pay-1", "ord-1"⟩
            ⟨[], sampleRegistry⟩).1,
          (webhook_idempotence_amended.2.1 sampleUsernames sampleUsernames
            ⟨"BO-77"⟩ (.ok ⟨"BO-77"⟩) sampleRegistry sampleWataPaid sampleIntent
            rfl h).1,
          (webhook_idempotence_amended.2.2.1 sampleUsernames sampleUsernames
            ⟨"BO-77"⟩ (.ok ⟨"BO-77"⟩) sampleRegistry samplePayid sampleIntent
            hne hp).1,
          (webhook_idempotence_amended.2.2.2.1 sampleUsernames sampleUsernames
            "timeout" (.error "timeout") sampleRegistry sampleWataPaid sampleIntent
            rfl h).1,
          (webhook_idempotence_amended.2.2.2.2 sampleUsernames sampleUsernames
            "timeout" (.error "timeout") sampleRegistry samplePayid sampleIntent
            hne hp).1⟩

/-- C3: evaluation of the Kassa path at the failing scenario: order ord-1
is registered, the first delivery of webhook pay-1 finds it and the
provisioning call throws a timeout.  Exactly one failure notification is
emitted and the order intent stays retrievable, as the claim states; but
the provisioning error is swallowed inside handleSuccessfulPayment, so the
release in the catch branch of processWebhook never runs: the dedup record
for pay-1_ord-1 survives, and the identical redelivery is skipped as a
duplicate with zero provisioning attempts, contrary to the claim. -/
theorem kassa_provisioning_failure_keeps_dedup_claim :
    countErrorNotify (kassaProcessWebhook sampleUsernames (.error "timeout") 0
      ⟨"pay-1", "ord-1"⟩ ⟨[], sampleRegistry⟩).2 = 1 ∧
    getOrderInfo "ord-1" (kassaProcessWebhook sampleUsernames (.error "timeout") 0
      ⟨"pay-1", "ord-1"⟩ ⟨[], sampleRegistry⟩).1.registry = some sampleIntent ∧
    containsKey "pay-1_ord-1" (kassaProcessWebhook sampleUsernames (.error "timeout") 0
      ⟨"pay-1", "ord-1"⟩ ⟨[], sampleRegistry⟩).1.dedup = true ∧
    countBuyStars (kassaProcessWebhook sampleUsernames (.error "timeout") 0
      ⟨"pay-1", "ord-1"⟩
      (kassaProcessWebhook sampleUsernames (.error "timeout") 0
        ⟨"pay-1", "ord-1"⟩ ⟨[], sampleRegistry⟩).1).2 = 0 := by
  refine ⟨rfl, rfl, rfl, rfl⟩

/-- C1: evaluation of the root webhook controller at a WATA payload whose
signature verification fails: the handler still invokes the webhook
processing service (one provisioning attempt happens for the registered
order) and acknowledges with HTTP 200 success, instead of rejecting with a
4xx before the orchestrator as the claim states.  The Kassa controller
decision on a failed signature is also shown: processing is indeed not
invoked there, but the response is a 200 acknowledgment with an error
body, not a 4xx status. -/
theorem root_wata_failed_signature_still_processed :
    (rootHandleWataWebhook sampleUsernames (.ok ⟨"BO-77"⟩) (.ok false)
      sampleRegistry sampleWataPaid).1 = HttpResponse.ok true ∧
    countBuyStars (rootHandleWataWebhook sampleUsernames (.ok ⟨"BO-77"⟩)
      (.ok false) sampleRegistry sampleWataPaid).2.2 = 1 ∧
    kassaHandleWebhookDecision true false = (HttpResponse.ok false, false) := by
  refine ⟨rfl, rfl, rfl⟩

/-- C4: the inbound Kassa webhook verifier fails without consulting the
digest oracle whenever a required field is falsy; otherwise it compares,
case insensitively, the hex digest of the concatenation of api key, payment
id, order id, project id, the amount formatted to exactly two decimal
places and the currency against the sign field.  The outbound payment
creation signature is a distinct operation over a different concatenation
(raw amount rendering, no payment id, literal currency), handed to the
SHA-512 oracle; an amount of ten hashes as the string with two decimals on
the inbound side and as the bare numeral on the outbound side. -/
theorem kassa_signature_scheme :
    (∀ (sha256hex : String → String) (apiKey : String) (p : KassaSigPayload),
      (strFalsy p.id || strFalsy p.order_id || natFalsy p.project_id ||
        natFalsy p.amountCents || strFalsy p.currency || strFalsy p.sign) = true →
      verifyWebhookSignature sha256hex apiKey p = false)
    ∧ (∀ (sha256hex : String → String) (apiKey : String) (p : KassaSigPayload),
      (strFalsy p.id || strFalsy p.order_id || natFalsy p.project_id ||
        natFalsy p.amountCents || strFalsy p.currency || strFalsy p.sign) = false →
      verifyWebhookSignature sha256hex apiKey p =
        ((sha256hex (kassaStringToSign apiKey (p.id.getD "") (p.order_id.getD "")
          (p.project_id.getD 0) (p.amountCents.getD 0) (p.currency.getD ""))).toLower ==
          (p.sign.getD "").toLower))
    ∧ (∀ (sha512hex : String → String) (apiKey orderId projectId : String)
        (amount : Nat),
      createApiSignature sha512hex apiKey orderId projectId amount =
        sha512hex (apiKey ++ orderId ++ projectId ++ toString amount ++ "RUB"))
    ∧ toFixed2 1000 = "10.00"
    ∧ kassaStringToSign "K" "I" "O" 7 1000 "RUB" = "KIO710.00RUB"
    ∧ ("K" ++ "O" ++ "7" ++ toString (10 : Nat) ++ "RUB") = "KO710RUB" := by
  refine ⟨?_, ?_, ?_, ?_, ?_, ?_⟩
  · intro sha256hex apiKey p h
    simp [verifyWebhookSignature, h]
  · intro sha256hex apiKey p h
    simp [verifyWebhookSignature, h]
  · intro sha512hex apiKey orderId projectId amount
    rfl
  · rfl
  · rfl
  · rfl

/-- Witness for the Kassa signature scheme at concrete inputs: a payload
with a missing sign field fails for the identity digest oracle, and a full
payload with amount ten is compared through the two decimal concatenation
(the identity oracle makes the expected digest the concatenation itself,
and the sign field carries exactly that string in upper case, so case
insensitive comparison accepts). -/
theorem kassa_signature_scheme_witness :
    verifyWebhookSignature (fun s => s) "K"
      ⟨some "I", some "O", some 7, some 1000, some "RUB", none⟩ = false ∧
    verifyWebhookSignature (fun s => s) "k"
      ⟨some "i", some "o", some 7, some 1000, some "rub", some "KIO710.00RUB"⟩ =
      ("kio710.00rub".toLower == "KIO710.00RUB".toLower) := by
  refine ⟨kassa_signature_scheme.1 (fun s => s) "K"
            ⟨some "I", some "O", some 7, some 1000, some "RUB", none⟩ (by decide),
          ?_⟩
  have h := kassa_signature_scheme.2.1 (fun s => s) "k"
    ⟨some "i", some "o", some 7, some 1000, some "rub", some "KIO710.00RUB"⟩
    (by decide)
  simpa [kassaStringToSign, toFixed2] using h

/-- C5: the WATA signature verifier is total: for every oracle behavior it
returns an ok boolean verdict (the catch maps every thrown error to false),
and a missing or empty signature header yields false for every raw body
and every oracle. -/
theorem wata_verify_never_throws_missing_false :
    (∀ (rsaVerify : RsaOracle) (rawBody : String) (signature : Option String),
      ∃ verdict, wataVerifySignatureE rsaVerify rawBody signature = .ok verdict)
    ∧ (∀ (rsaVerify : RsaOracle) (rawBody : String),
        wataVerifySignatureE rsaVerify rawBody none = .ok false ∧
        wataVerifySignatureE rsaVerify rawBody (some "") = .ok false) := by
  constructor
  · intro rsaVerify rawBody signature
    unfold wataVerifySignatureE
    by_cases h : ((signature.getD "") == "") = true
    · exact ⟨false, by simp [h]⟩
    · have h2 : ((signature.getD "") == "") = false := by simpa using h
      cases hv : rsaVerify rawBody (signature.getD "") with
      | ok verdict => exact ⟨verdict, by simp [h2, hv]⟩
      | error e => exact ⟨false, by simp [h2, hv]⟩
  · intro rsaVerify rawBody
    constructor <;> rfl

/-- C9: PayID19 verification is the equality of the echoed private key with
the configured one, and the controller bypasses it exactly when the test
flag equals one or the private key or order identifier field is falsy; when
not bypassed, rejection happens exactly on key mismatch and processing
exactly on key match. -/
theorem payid19_validation_exact_bypass :
    ∀ (configuredPrivateKey : String) (p : Payid19Payload),
      payid19ValidateWebhook configuredPrivateKey p =
        ((p.private_key.getD "") == configuredPrivateKey) ∧
      payid19SkipValidation p =
        ((p.test == some 1) || ((p.private_key.getD "") == "") ||
          ((p.order_id.getD "") == "")) ∧
      (payid19HandleWebhookDecision configuredPrivateKey p).validationSkipped =
        payid19SkipValidation p ∧
      (payid19HandleWebhookDecision configuredPrivateKey p).rejected =
        (!payid19SkipValidation p &&
          !((p.private_key.getD "") == configuredPrivateKey)) ∧
      (payid19HandleWebhookDecision configuredPrivateKey p).processInvoked =
        (payid19SkipValidation p ||
          ((p.private_key.getD "") == configuredPrivateKey)) := by
  intro configuredPrivateKey p
  refine ⟨rfl, rfl, ?_, ?_, ?_⟩ <;>
  · unfold payid19HandleWebhookDecision
    by_cases hs : payid19SkipValidation p = true
    · simp [hs]
    · have hs2 : payid19SkipValidation p = false := by simpa using hs
      by_cases hv : payid19ValidateWebhook configuredPrivateKey p = true
      · simp [hs2, hv, payid19ValidateWebhook] at hv ⊢
        simp [hv]
      · have hv2 : payid19ValidateWebhook configuredPrivateKey p = false := by
          simpa using hv
        simp [hs2, hv2, payid19ValidateWebhook] at hv2 ⊢
        simp [hv2]

/-- C10: in the PayID19 success handler, a description containing the
recipient marker determines the provisioning recipient and overrides the
stored intent entirely (gift handle and requester resolution alike, for
every username oracle and every stored intent); the stored intent logic is
consulted exactly when no match is present.  Two concrete evaluations of
the extraction are included: a description with the marker between pipes
captures the handle up to the next stop character, and a description
without the marker yields no extraction. -/
theorem payid19_description_recipient_override :
    (∀ (ub : UsernameOracle) (d : Option String) (oi : OrderInfo) (u : String),
      extractRecipient d = some u → payid19DetermineRecipient ub d oi = u)
    ∧ (∀ (ub : UsernameOracle) (d : Option String) (oi : OrderInfo),
      extractRecipient d = none →
        payid19DetermineRecipient ub d oi = determineRecipient ub oi)
    ∧ extractRecipient (some "Оплата|recipient:alice|100") = some "alice"
    ∧ extractRecipient (some "no marker here") = none := by
  refine ⟨?_, ?_, ?_, ?_⟩
  · intro ub d oi u h
    simp [payid19DetermineRecipient, h]
  · intro ub d oi h
    simp [payid19DetermineRecipient, h]
  · rfl
  · rfl

/-- Witness for the description override: for a gift intent whose stored
recipient is bob, a webhook description carrying the alice marker redirects
provisioning to alice, and without a marker the stored gift recipient bob
is used. -/
theorem payid19_description_recipient_override_witness :
    payid19DetermineRecipient sampleUsernames (some "Оплата|recipient:alice|100")
      ⟨42, 42, 100, true, some "bob", "gift", "t0"⟩ = "alice" ∧
    payid19DetermineRecipient sampleUsernames (some "no marker here")
      ⟨42, 42, 100, true, some "bob", "gift", "t0"⟩ =
      determineRecipient sampleUsernames ⟨42, 42, 100, true, some "bob", "gift", "t0"⟩ := by
  exact ⟨payid19_description_recipient_override.1 sampleUsernames
           (some "Оплата|recipient:alice|100")
           ⟨42, 42, 100, true, some "bob", "gift", "t0"⟩ "alice"
           payid19_description_recipient_override.2.2.1,
         payid19_description_recipient_override.2.1 sampleUsernames
           (some "no marker here")
           ⟨42, 42, 100, true, some "bob", "gift", "t0"⟩
           payid19_description_recipient_override.2.2.2⟩
